import Mathlib

/-!
Shallow embedding of the job-processing pipeline of this repository
(`processor-side-work/processor_local_only.py` and
`producer-side-work/upload_handler.py`), together with proofs of the
spec's claims about it.

Network transport, the wall clock and the filesystem are external
collaborators: they are modelled as explicit oracle parameters
(per-attempt success predicates, size oracles, response values), and the
Python functions are translated statement-by-statement into total Lean
functions over those oracles.  Python exceptions are modelled with
`Except` / explicit failure branches, and Python string truthiness
(`if not x`) with `truthy : Option String → Bool`.
-/

namespace Processor

/-- Python truthiness of an optional string: `None` and `""` are falsy. -/
def truthy : Option String → Bool
  | none => false
  | some s => s != ""

/-- `os.path.join` of a folder and a file name (POSIX flavour). -/
def localPath (folder name : String) : String := folder ++ "/" ++ name

/-- Join relative path components with `/`. -/
def joinPath (comps : List String) : String := String.intercalate "/" comps

/-- The characters of a path after its last `/` (structural helper). -/
def lastComponent : List Char → List Char → List Char
  | [], acc => acc
  | c :: cs, acc =>
    if c = '/' then lastComponent cs [] else lastComponent cs (acc ++ [c])

/-- `os.path.basename` of a POSIX path. -/
def baseName (p : String) : String := ⟨lastComponent p.data []⟩

/-- One entry of a job descriptor's `file_object` list.  The Python code
reads both fields with `.get`, so each is optional. -/
structure FileObj where
  file_name : Option String
  presigned_url : Option String
deriving DecidableEq, Repr

/-- Observable outcome of `download_single_file`: the returned value
(`Some local_path` on success, `None` on failure), the number of download
attempts actually performed against the transport, and the list of
back-off sleep durations (`time.sleep` arguments), in order. -/
structure DownloadOutcome where
  result : Option String
  attempts : Nat
  sleeps : List Nat
deriving DecidableEq, Repr

/-- The retry loop `for attempt in range(max_retries + 1)` of
`download_single_file` (processor_local_only.py lines 166-206), run over
the remaining attempt indices.  `transport a = true` means the download
succeeds on attempt number `a`.  On success the local path is returned at
once; on failure of the final attempt (`attempt == max_retries`) the loop
gives up with `none`; otherwise it sleeps `2 ^ attempt` and retries. -/
def runAttempts (transport : Nat → Bool) (p : String) (R : Nat) :
    List Nat → DownloadOutcome
  | [] => ⟨none, 0, []⟩
  | a :: rest =>
    if transport a then ⟨some p, 1, []⟩
    else if a = R then ⟨none, 1, []⟩
    else
      let o := runAttempts transport p R rest
      ⟨o.result, o.attempts + 1, 2 ^ a :: o.sleeps⟩

/-- `download_single_file` (lines 147-206): missing/empty `file_name` or
`presigned_url` returns `None` at once (no attempt, no sleep); otherwise
the retry loop runs over attempts `0 .. max_retries`. -/
def download_single_file (fo : FileObj) (files_folder_path : String)
    (transport : Nat → Bool) (max_retries : Nat) : DownloadOutcome :=
  if !truthy fo.file_name || !truthy fo.presigned_url then ⟨none, 0, []⟩
  else
    runAttempts transport
      (localPath files_folder_path (fo.file_name.getD "")) max_retries
      (List.range (max_retries + 1))

/-- Module constant `SIMULTANEOUS_DOWNLOADS_MAX` (line 24). -/
def SIMULTANEOUS_DOWNLOADS_MAX : Nat := 4

/-- The per-task outcomes of `step_5_download_files`: each file object is
handed to `download_single_file` with its own transport oracle
(`transports i` is the per-attempt success predicate of the `i`-th task);
tasks are independent of one another. -/
def downloadOutcomes (fos : List FileObj) (folder : String)
    (transports : Nat → Nat → Bool) (R : Nat) :
    List (FileObj × DownloadOutcome) :=
  fos.enum.map fun p =>
    (p.2, download_single_file p.2 folder (transports p.1) R)

/-- `step_5_download_files` (lines 208-287): empty `file_object` list
returns `[]` with only a warning; otherwise every task's successful local
path is collected (the Python collects in completion order; the model
fixes submission order, the result being order-independent per the spec). -/
def step_5_download_files (fos : List FileObj) (folder : String)
    (transports : Nat → Nat → Bool) (R : Nat) : List String :=
  if fos.isEmpty then []
  else (downloadOutcomes fos folder transports R).filterMap (·.2.result)

/-- Worker-pool size chosen by `step_5_download_files` (line 226):
`min(W, total_files)`; `none` when the early empty-list return fires
before any pool is built.  `W` generalises the module constant
`SIMULTANEOUS_DOWNLOADS_MAX`. -/
def step_5_actual_workers (W : Nat) (fos : List FileObj) : Option Nat :=
  if fos.isEmpty then none else some (min W fos.length)

/-- Observable: names of the files whose download task succeeded. -/
def succeededNames (fos : List FileObj) (folder : String)
    (transports : Nat → Nat → Bool) (R : Nat) : List String :=
  (downloadOutcomes fos folder transports R).filterMap fun p =>
    if p.2.result.isSome then some (p.1.file_name.getD "") else none

/-- Observable: names of the files whose download task ended `Failed`. -/
def failedNames (fos : List FileObj) (folder : String)
    (transports : Nat → Nat → Bool) (R : Nat) : List String :=
  (downloadOutcomes fos folder transports R).filterMap fun p =>
    if p.2.result.isNone then some (p.1.file_name.getD "") else none

/-! ## Step 6: archiving (`step_6_zip_folder`, lines 289-367)

The filesystem under the job folder is modelled as the list of its
regular files, each given by its path components relative to the job
folder together with its size in bytes, in `os.walk` order.  What an
archive on disk contains is tracked by a provenance marker, since only
provenance (complete primary archive / partial primary archive /
fallback archive of the files-subfolder) is observable to the claims. -/

/-- Provenance of a zip file sitting on disk. -/
inductive ArchiveContent where
  /-- Complete archive written by the primary `zipfile` method; carries
  the list of entry names (`arcname`s, as path components). -/
  | primaryFull (arcnames : List (List String))
  /-- Left-over file of a primary `zipfile` run that raised part-way. -/
  | primaryPartial
  /-- Archive written by `shutil.make_archive` over the files-subfolder. -/
  | fallbackOfSubfolder
deriving DecidableEq, Repr

/-- External-failure oracle for `step_6_zip_folder`.  `primaryFails`:
the `zipfile` walk raises (an I/O error, an external event).
`primaryLeftFile`: when it raised, whether the partially written
`{job_id}_archive.zip` remains on disk (the `ZipFile(..., 'w')` open
creates the file before the walk).  `fallbackFails`:
`shutil.make_archive` raises.  `zipSizeOnDisk`: what `os.path.getsize`
reports for the archive at `zip_file_path` when that file exists. -/
structure ZipEnv where
  primaryFails : Bool
  primaryLeftFile : Bool
  fallbackFails : Bool
  zipSizeOnDisk : Nat
deriving DecidableEq, Repr

/-- The tuple returned by `step_6_zip_folder`, plus two observables: the
provenance of the file at the returned path, and the path (if any) that
`shutil.make_archive` actually wrote to. -/
structure ZipResult where
  path : Option String
  total_size_before : Nat
  zip_size : Nat
  files_processed : Nat
  contentAtReturnedPath : Option ArchiveContent
  fallbackWrotePath : Option String
deriving DecidableEq, Repr

/-- `zip_file_path` (line 292): `{local_folder_path}/{job_id}_archive.zip`. -/
def zip_file_path (local_folder_path job_id : String) : String :=
  local_folder_path ++ "/" ++ job_id ++ "_archive.zip"

/-- The path `shutil.make_archive(os.path.join(local_folder_path, job_id),
'zip', ...)` writes to (line 353-354): the base name plus `.zip`. -/
def fallback_zip_path (local_folder_path job_id : String) : String :=
  local_folder_path ++ "/" ++ job_id ++ ".zip"

/-- The files the primary `zipfile` walk adds (lines 304-322): every
regular file under the root except the archive file itself, compared by
full path (line 310). -/
def primaryEntries (files : List (List String × Nat))
    (local_folder_path job_id : String) : List (List String × Nat) :=
  files.filter fun f =>
    localPath local_folder_path (joinPath f.1)
      != zip_file_path local_folder_path job_id

/-- The `arcname` of an added file (line 319):
`os.path.relpath(file_path, os.path.dirname(local_folder_path))`, i.e.
the job folder's own name followed by the file's components. -/
def primaryArcnames (files : List (List String × Nat))
    (local_folder_path job_id : String) : List (List String) :=
  (primaryEntries files local_folder_path job_id).map
    fun f => baseName local_folder_path :: f.1

/-- `step_6_zip_folder` (lines 289-367).  Primary method: walk the job
folder, add every regular file except the archive itself, return
`(zip_file_path, total_size_before, zip_size, files_processed)`.  On a
primary failure, the fallback runs `shutil.make_archive` over the
files-subfolder `{local_folder_path}/{job_id}` — which writes
`{job_id}.zip` — and then reads `os.path.getsize(zip_file_path)`, i.e.
the size of `{job_id}_archive.zip`: that read succeeds only when the
failed primary run left its file behind, and the returned path is then
the primary's partial file, not the fallback archive; when
`{job_id}_archive.zip` does not exist the `getsize` raises and the
whole fallback returns `(None, 0, 0, 0)`. -/
def step_6_zip_folder (files : List (List String × Nat))
    (local_folder_path job_id : String) (zenv : ZipEnv) : ZipResult :=
  let zp := zip_file_path local_folder_path job_id
  if !zenv.primaryFails then
    let entries := primaryEntries files local_folder_path job_id
    { path := some zp
      total_size_before := (entries.map (·.2)).sum
      zip_size := zenv.zipSizeOnDisk
      files_processed := entries.length
      contentAtReturnedPath :=
        some (.primaryFull (primaryArcnames files local_folder_path job_id))
      fallbackWrotePath := none }
  else if zenv.fallbackFails then
    ⟨none, 0, 0, 0, none, none⟩
  else if zenv.primaryLeftFile then
    { path := some zp
      total_size_before := zenv.zipSizeOnDisk
      zip_size := zenv.zipSizeOnDisk
      files_processed := 1
      contentAtReturnedPath := some .primaryPartial
      fallbackWrotePath := some (fallback_zip_path local_folder_path job_id) }
  else
    ⟨none, 0, 0, 0, none, some (fallback_zip_path local_folder_path job_id)⟩

/-! ## Step 7: upload (`step_7_get_upload_url_and_upload`, lines 369-427) -/

/-- The parsed body of the callback GET response; both fields are read
with `.get`, hence optional. -/
structure UploadResp where
  upload_url : Option String
  s3_key : Option String
deriving DecidableEq, Repr

/-- Oracles for step 7: the callback GET (`Except` for a transport/parse
exception) and the PUT (`Except` for a transport exception — `urlopen`
raises on 4xx/5xx — or an observed status code). -/
structure Step7Env where
  getResp : Except String UploadResp
  putResult : Except String Nat
deriving Repr

/-- What `step_7_get_upload_url_and_upload` returns, plus the number of
PUT requests it issued. -/
structure Step7Result where
  success : Bool
  s3_key : Option String
  putsAttempted : Nat
deriving DecidableEq, Repr

/-- Whether a PUT outcome is a 2xx success (line 418). -/
def put2xx : Except String Nat → Bool
  | .error _ => false
  | .ok s => 200 ≤ s && s < 300

/-- `step_7_get_upload_url_and_upload` (lines 369-427): GET the callback
URL; a missing `upload_url` raises (caught by the function's own handler,
line 425) before any PUT; otherwise one PUT is issued and 2xx means
success.  Every failure path returns `(False, None)`; none retries. -/
def step_7_get_upload_url_and_upload (env : Step7Env) : Step7Result :=
  match env.getResp with
  | .error _ => ⟨false, none, 0⟩
  | .ok resp =>
    if !truthy resp.upload_url then ⟨false, none, 0⟩
    else if put2xx env.putResult then ⟨true, resp.s3_key, 1⟩
    else ⟨false, none, 1⟩

/-! ## The orchestrator (`main_process_job`, lines 429-550) -/

/-- The fields `main_process_job` reads from the step-1 response body
(lines 437-438), each via `.get`. -/
structure JobDetails where
  job_id : Option String
  job_file_download_url : Option String
deriving DecidableEq, Repr

/-- The `JobRequest` part of the job file the orchestrator uses: the
`file_object` list (line 214, defaulting to `[]`) and the callback URL
(line 491, via `.get`). -/
structure JobData where
  file_object : List FileObj
  call_url_when_done_with_job_id : Option String
deriving DecidableEq, Repr

/-- The environment of one orchestrator run: outcomes of the external
calls (`Except` models a raised exception), the per-task download
transports, the archiving oracle, the upload-phase oracle, the clock
reading used for the folder name and the script directory, and a size
oracle for files written into the job folder. -/
structure Env where
  step1 : Except String JobDetails
  step2 : Except String (Option JobData)
  transports : Nat → Nat → Bool
  zipEnv : ZipEnv
  step7 : Step7Env
  timestamp : String
  baseDir : String
  fileSize : List String → Nat

/-- The dictionary returned on the success path (lines 522-531).
Wall-clock timings are not modelled; the key set is recorded by
`returnKeys`. -/
structure SuccessRecord where
  job_id : String
  local_folder_path : String
  files_folder_path : String
  downloaded_files : List String
  zip_file_path : String
  s3_key : Option String
  log_file : String
deriving DecidableEq, Repr

/-- What `main_process_job` returns: the success dictionary, or — from
the catch-all handler (lines 533-550) — the error dictionary. -/
inductive MainReturn where
  | success (rec : SuccessRecord)
  | failure (error : String)
deriving DecidableEq, Repr

/-- The keys of the Python dictionary each return path builds,
transcribed from the two `return` statements (lines 522-531 and
547-550). -/
def returnKeys : MainReturn → List String
  | .success _ =>
    ["job_id", "local_folder_path", "files_folder_path",
     "downloaded_files", "zip_file_path", "s3_key", "log_file",
     "processing_time_seconds"]
  | .failure _ => ["error", "processing_time_seconds"]

/-- A run's returned value plus execution observables: whether archiving
was entered, the entry count of the archive build, how many PUTs the
upload phase issued, and the provenance of the file an issued PUT
uploaded. -/
structure MainOutcome where
  result : MainReturn
  zipAttempted : Bool
  archiveEntries : Nat
  putsAttempted : Nat
  uploadedContent : Option ArchiveContent
deriving Repr

/-- The regular files sitting in the job folder when step 6 walks it:
`job_details.json` written by step 3 (line 471), the log file created by
`setup_logging` (line 32), and one file per successful download inside
the `{job_id}` subfolder; sizes come from the environment's oracle. -/
def jobFolderFiles (env : Env) (job_id : String) (fos : List FileObj)
    (files_folder_path : String) : List (List String × Nat) :=
  ([["job_details.json"], [job_id ++ "_log_file.txt"]] ++
    (succeededNames fos files_folder_path env.transports 1).map
      fun n => [job_id, n]).map fun p => (p, env.fileSize p)

/-- `main_process_job` (lines 429-550), statement by statement.  Step 5
is called with the default `max_retries = 1` (line 480) and the file
list is never checked for emptiness; step 6 is entered unconditionally
after the downloads; a `None` archive path, a missing callback URL or a
failed upload raise, and the catch-all handler turns every raised
exception into the error dictionary. -/
def main_process_job (env : Env) : MainOutcome :=
  match env.step1 with
  | .error e => ⟨.failure e, false, 0, 0, none⟩
  | .ok jd =>
    if !truthy jd.job_id || !truthy jd.job_file_download_url then
      ⟨.failure "Missing job_id or job_file_download_url in response",
       false, 0, 0, none⟩
    else
      let job_id := jd.job_id.getD ""
      let folder_name := env.timestamp ++ "-" ++ job_id
      let local_folder_path :=
        env.baseDir ++ "/process_work/" ++ folder_name
      match env.step2 with
      | .error e => ⟨.failure e, false, 0, 0, none⟩
      | .ok none =>
        ⟨.failure "Empty job file data received", false, 0, 0, none⟩
      | .ok (some jfd) =>
        let files_folder_path := local_folder_path ++ "/" ++ job_id
        let downloaded := step_5_download_files jfd.file_object
          files_folder_path env.transports 1
        let tree := jobFolderFiles env job_id jfd.file_object
          files_folder_path
        let zr := step_6_zip_folder tree local_folder_path job_id
          env.zipEnv
        match zr.path with
        | none =>
          ⟨.failure "Failed to create zip archive", true,
           zr.files_processed, 0, none⟩
        | some zp =>
          if !truthy jfd.call_url_when_done_with_job_id then
            ⟨.failure "No callback URL found in job data", true,
             zr.files_processed, 0, none⟩
          else
            let r7 := step_7_get_upload_url_and_upload env.step7
            let uploaded :=
              if r7.putsAttempted > 0 then zr.contentAtReturnedPath
              else none
            if r7.success then
              ⟨.success
                { job_id := job_id
                  local_folder_path := local_folder_path
                  files_folder_path := files_folder_path
                  downloaded_files := downloaded
                  zip_file_path := zp
                  s3_key := r7.s3_key
                  log_file :=
                    local_folder_path ++ "/" ++ job_id ++ "_log_file.txt" },
               true, zr.files_processed, r7.putsAttempted, uploaded⟩
            else
              ⟨.failure "Failed to upload zip file", true,
               zr.files_processed, r7.putsAttempted, uploaded⟩

end Processor

namespace UploadHandler

/-!  Embedding of `producer-side-work/upload_handler.py`.  The boto3
presigned-URL generation is the external collaborator, modelled as an
oracle from the S3 key to either a URL or a raised exception. -/

/-- A Lambda proxy event as far as the handler reads it: an optional
dictionary whose `queryStringParameters` entry is an optional
string-to-string dictionary (assoc list). -/
structure LambdaEvent where
  queryStringParameters : Option (List (String × String))
deriving DecidableEq, Repr

/-- `.get` on a query-string dictionary. -/
def qsGet (qs : List (String × String)) (k : String) : Option String :=
  (qs.find? fun p => p.1 == k).map (·.2)

/-- The job-id extraction of `lambda_handler` (upload_handler.py lines
22-26): `job_id` is taken from `queryStringParameters` only when the
event is a truthy dict, the parameter dict is present and truthy, and
the `job_id` value is truthy (non-empty). -/
def extract_job_id (event : Option LambdaEvent) : Option String :=
  match event with
  | none => none
  | some e =>
    match e.queryStringParameters with
    | none => none
    | some qs =>
      match qsGet qs "job_id" with
      | none => none
      | some v => if v == "" then none else some v

/-- Module constant `UPLOAD_FOLDER` (line 12). -/
def UPLOAD_FOLDER : String := "zip_processed_by_processor"

/-- The JSON body of a 200 response (lines 59-64). -/
structure HandlerBody where
  job_id : String
  upload_url : String
  s3_key : String
  expires_in : String
deriving DecidableEq, Repr

/-- The handler's response: 200 with the body, or — from the except
handler, lines 67-73 — 500 with a message. -/
inductive HandlerResp where
  | ok (statusCode : Nat) (body : HandlerBody)
  | err (statusCode : Nat) (message : String)
deriving DecidableEq, Repr

/-- `lambda_handler` (lines 14-73): a missing/empty `job_id` silently
falls back to `"test-job-id"` (lines 29-31); the S3 key is
`{UPLOAD_FOLDER}/{job_id}/{job_id}.zip` (line 40); presigning yields a
200 with the URL, a presigning exception yields a 500. -/
def lambda_handler (event : Option LambdaEvent)
    (presign : String → Except String String) : HandlerResp :=
  let job_id := (extract_job_id event).getD "test-job-id"
  let s3_key := UPLOAD_FOLDER ++ "/" ++ job_id ++ "/" ++ job_id ++ ".zip"
  match presign s3_key with
  | .ok url => .ok 200 ⟨job_id, url, s3_key, "10 hours"⟩
  | .error e => .err 500 ("Error generating presigned URL: " ++ e)

end UploadHandler

namespace Processor

/-- Whether a `main_process_job` return value is the success dictionary
(the "Completed" terminal state) rather than the error dictionary. -/
def MainReturn.isSuccess : MainReturn → Bool
  | .success _ => true
  | .failure _ => false

/-! ## Concrete run environments used as test inputs -/

/-- A well-formed step-1 response body. -/
def jdOk : JobDetails := ⟨some "j1", some "http://u"⟩

/-- The two-file job of the partial-failure scenario. -/
def fosAB : List FileObj :=
  [⟨some "a.pdf", some "http://a"⟩, ⟨some "b.pdf", some "http://b"⟩]

/-- An archiving oracle on which the primary method succeeds. -/
def zipOk : ZipEnv := ⟨false, false, false, 10⟩

/-- An upload-phase oracle with a usable upload URL and a 200 PUT. -/
def step7Ok : Step7Env := ⟨.ok ⟨some "http://up", some "k"⟩, .ok 200⟩

/-- A run whose job descriptor carries an empty file list and whose
archiving and upload collaborators succeed. -/
def envC2 : Env :=
  ⟨.ok jdOk, .ok (some ⟨[], some "http://cb"⟩), fun _ _ => true, zipOk,
   step7Ok, "250101", "/w", fun _ => 1⟩

/-- A run on the two-file job where `a.pdf`'s transport always succeeds
and `b.pdf`'s transport permanently fails. -/
def envC3 : Env :=
  ⟨.ok jdOk, .ok (some ⟨fosAB, some "http://cb"⟩), fun i _ => i == 0,
   zipOk, step7Ok, "250101", "/w", fun _ => 5⟩

/-- A run where the primary archiving method raises part-way (leaving
its partially written archive on disk) and the fallback succeeds. -/
def envC4 : Env :=
  ⟨.ok jdOk, .ok (some ⟨fosAB, some "http://cb"⟩), fun _ _ => true,
   ⟨true, true, false, 7⟩, step7Ok, "250101", "/w", fun _ => 5⟩

/-- A run whose callback GET yields a response without `upload_url`. -/
def envC5a : Env :=
  ⟨.ok jdOk, .ok (some ⟨fosAB, some "http://cb"⟩), fun _ _ => true,
   zipOk, ⟨.ok ⟨none, some "k"⟩, .ok 200⟩, "250101", "/w", fun _ => 5⟩

/-- A run whose PUT of the archive is rejected with status 403. -/
def envC5b : Env :=
  ⟨.ok jdOk, .ok (some ⟨fosAB, some "http://cb"⟩), fun _ _ => true,
   zipOk, ⟨.ok ⟨some "http://up", some "k"⟩, .ok 403⟩, "250101", "/w",
   fun _ => 5⟩

/-- A run whose very first step (the job-details fetch) raises. -/
def envC9fail : Env :=
  ⟨.error "boom", .ok none, fun _ _ => false, zipOk,
   ⟨.error "x", .error "y"⟩, "250101", "/w", fun _ => 0⟩

/-! ## Lemmas about the retry loop -/

/-- Running the retry loop over a prefix of attempts that all fail and
are none of them the final attempt just accumulates one attempt and one
back-off sleep per prefix element. -/
lemma runAttempts_all_fail_prefix (transport : Nat → Bool) (p : String)
    (R : Nat) (l1 l2 : List Nat)
    (h : ∀ a ∈ l1, transport a = false ∧ a ≠ R) :
    runAttempts transport p R (l1 ++ l2) =
      ⟨(runAttempts transport p R l2).result,
       (runAttempts transport p R l2).attempts + l1.length,
       (l1.map fun a => 2 ^ a) ++ (runAttempts transport p R l2).sleeps⟩ := by
  induction l1 with
  | nil => simp
  | cons a rest ih =>
    obtain ⟨hfa, hne⟩ := h a (List.mem_cons_self a rest)
    have ih' := ih fun b hb => h b (List.mem_cons_of_mem a hb)
    simp only [List.cons_append, runAttempts, hfa, Bool.false_eq_true,
      if_false, hne, ite_false, List.append_eq, ih', List.map_cons,
      List.length_cons, DownloadOutcome.mk.injEq, List.cons_append]
    exact ⟨trivial, by omega, trivial⟩

/-- The retry loop on the single final attempt: one attempt, no sleep,
success exactly when the transport succeeds there. -/
lemma runAttempts_final (transport : Nat → Bool) (p : String) (R : Nat) :
    runAttempts transport p R [R] =
      if transport R then ⟨some p, 1, []⟩ else ⟨none, 1, []⟩ := by
  simp [runAttempts]

/-- A valid task whose transport fails on attempts `0 .. R-1` and
succeeds on attempt `R` returns the local path after `R + 1` attempts,
having slept `2^0, ..., 2^(R-1)`. -/
lemma download_single_file_succeeds_last (fo : FileObj) (folder : String)
    (transport : Nat → Bool) (R : Nat)
    (h1 : truthy fo.file_name = true) (h2 : truthy fo.presigned_url = true)
    (hf : ∀ a, a < R → transport a = false) (hs : transport R = true) :
    download_single_file fo folder transport R =
      ⟨some (localPath folder (fo.file_name.getD "")), R + 1,
       (List.range R).map fun a => 2 ^ a⟩ := by
  have hpre : ∀ a ∈ List.range R, transport a = false ∧ a ≠ R := by
    intro a ha
    have := List.mem_range.1 ha
    exact ⟨hf a this, Nat.ne_of_lt this⟩
  unfold download_single_file
  rw [if_neg (by simp [h1, h2])]
  rw [List.range_succ,
    runAttempts_all_fail_prefix transport _ R _ _ hpre,
    runAttempts_final, if_pos hs]
  simp only [List.length_range, List.append_nil, DownloadOutcome.mk.injEq]
  exact ⟨trivial, by omega, trivial⟩

/-- A valid task whose transport fails on every attempt `0 .. R` returns
`None` after exactly `R + 1` attempts, having slept `2^0, ..., 2^(R-1)`. -/
lemma download_single_file_all_fail (fo : FileObj) (folder : String)
    (transport : Nat → Bool) (R : Nat)
    (h1 : truthy fo.file_name = true) (h2 : truthy fo.presigned_url = true)
    (hf : ∀ a, a ≤ R → transport a = false) :
    download_single_file fo folder transport R =
      ⟨none, R + 1, (List.range R).map fun a => 2 ^ a⟩ := by
  have hpre : ∀ a ∈ List.range R, transport a = false ∧ a ≠ R := by
    intro a ha
    have := List.mem_range.1 ha
    exact ⟨hf a (Nat.le_of_lt this), Nat.ne_of_lt this⟩
  unfold download_single_file
  rw [if_neg (by simp [h1, h2])]
  rw [List.range_succ,
    runAttempts_all_fail_prefix transport _ R _ _ hpre,
    runAttempts_final, if_neg (by simp [hf R (Nat.le_refl R)])]
  simp only [List.length_range, List.append_nil, DownloadOutcome.mk.injEq]
  exact ⟨trivial, by omega, trivial⟩

/-- A task whose own download succeeds contributes its local path to the
scheduler's result, whatever the other tasks (in particular failing
ones) do: per-file failure never aborts the job. -/
lemma mem_step_5_of_success (fos : List FileObj) (folder : String)
    (transports : Nat → Nat → Bool) (R : Nat) (i : Nat) (fo : FileObj)
    (p : String) (hget : fos[i]? = some fo)
    (hres : (download_single_file fo folder (transports i) R).result
      = some p) :
    p ∈ step_5_download_files fos folder transports R := by
  have hne : fos.isEmpty = false := by
    cases fos with
    | nil => simp at hget
    | cons _ _ => rfl
  unfold step_5_download_files
  rw [hne]
  simp only [Bool.false_eq_true, if_false]
  refine List.mem_filterMap.2
    ⟨(fo, download_single_file fo folder (transports i) R), ?_, hres⟩
  unfold downloadOutcomes
  exact List.mem_map.2
    ⟨(i, fo), List.mk_mem_enum_iff_getElem?.2 hget, rfl⟩

/-! ## Claims -/

/-- C1: for every download task with a valid `file_name` and
`presigned_url` and retry bound `R`: if the transport fails on attempts
`0 .. R-1` and succeeds on attempt `R`, `download_single_file` returns
the local file path; if it fails on all of `0 .. R` it returns `None`
having consumed exactly `R + 1` attempts — in both cases sleeping
`2 ^ attempt` time units after each failed non-final attempt — and a
task's failure never aborts the other tasks of the job: any other task
whose own download succeeds still contributes its path to the
scheduler's result. -/
theorem C1_retry_policy :
    (∀ (fo : FileObj) (folder : String) (transport : Nat → Bool) (R : Nat),
      truthy fo.file_name = true → truthy fo.presigned_url = true →
      (∀ a, a < R → transport a = false) → transport R = true →
      download_single_file fo folder transport R =
        ⟨some (localPath folder (fo.file_name.getD "")), R + 1,
         (List.range R).map fun a => 2 ^ a⟩) ∧
    (∀ (fo : FileObj) (folder : String) (transport : Nat → Bool) (R : Nat),
      truthy fo.file_name = true → truthy fo.presigned_url = true →
      (∀ a, a ≤ R → transport a = false) →
      download_single_file fo folder transport R =
        ⟨none, R + 1, (List.range R).map fun a => 2 ^ a⟩) ∧
    (∀ (fos : List FileObj) (folder : String)
      (transports : Nat → Nat → Bool) (R i : Nat) (fo : FileObj)
      (p : String), fos[i]? = some fo →
      (download_single_file fo folder (transports i) R).result = some p →
      p ∈ step_5_download_files fos folder transports R) :=
  ⟨download_single_file_succeeds_last, download_single_file_all_fail,
   mem_step_5_of_success⟩

/-- Witness for C1 at concrete inputs: `R = 2` with success on the final
attempt; `R = 1` with every attempt failing; and a failing first task
not stopping a succeeding second task. -/
theorem C1_retry_policy_witness :
    download_single_file ⟨some "a.pdf", some "http://u"⟩ "/d"
        (fun a => a == 2) 2 = ⟨some "/d/a.pdf", 3, [1, 2]⟩ ∧
    download_single_file ⟨some "a.pdf", some "http://u"⟩ "/d"
        (fun _ => false) 1 = ⟨none, 2, [1]⟩ ∧
    "/d/b.pdf" ∈ step_5_download_files
      [⟨some "a.pdf", some "http://u"⟩, ⟨some "b.pdf", some "http://v"⟩]
      "/d" (fun i _ => i == 1) 1 := by
  refine ⟨?_, ?_, ?_⟩
  · have := C1_retry_policy.1 ⟨some "a.pdf", some "http://u"⟩ "/d"
      (fun a => a == 2) 2 (by decide) (by decide) (by decide) (by decide)
    simpa using this
  · have := C1_retry_policy.2.1 ⟨some "a.pdf", some "http://u"⟩ "/d"
      (fun _ => false) 1 (by decide) (by decide) (by decide)
    simpa using this
  · exact C1_retry_policy.2.2
      [⟨some "a.pdf", some "http://u"⟩, ⟨some "b.pdf", some "http://v"⟩]
      "/d" (fun i _ => i == 1) 1 1 ⟨some "b.pdf", some "http://v"⟩
      "/d/b.pdf" (by decide) (by decide)

/-- C7: for every job with `n ≥ 1` files and concurrency bound `W`,
`step_5_download_files` sizes its worker pool at exactly `min W n`, and
whenever `W` exceeds (or equals) the file count the pool size equals
the file count. -/
theorem C7_worker_pool_size :
    ∀ (W : Nat) (fos : List FileObj), fos ≠ [] →
      step_5_actual_workers W fos = some (min W fos.length) ∧
      (fos.length ≤ W →
        step_5_actual_workers W fos = some fos.length) := by
  intro W fos hne
  have h : fos.isEmpty = false := by
    cases fos with
    | nil => exact absurd rfl hne
    | cons _ _ => rfl
  constructor
  · unfold step_5_actual_workers
    rw [h]
    simp
  · intro hle
    unfold step_5_actual_workers
    rw [h]
    simp [Nat.min_eq_right hle]

/-- Witness for C7: two files under the default bound
`SIMULTANEOUS_DOWNLOADS_MAX = 4` give a pool of exactly 2 workers. -/
theorem C7_worker_pool_size_witness :
    step_5_actual_workers SIMULTANEOUS_DOWNLOADS_MAX
      [⟨some "a.pdf", some "u"⟩, ⟨some "b.pdf", some "v"⟩] = some 2 :=
  (C7_worker_pool_size SIMULTANEOUS_DOWNLOADS_MAX
    [⟨some "a.pdf", some "u"⟩, ⟨some "b.pdf", some "v"⟩]
    (by decide)).2 (by decide)

/-- C8: a file object missing (or empty in) either its `file_name` or
its `presigned_url` fails immediately: `download_single_file` returns
`None` with zero download attempts and zero sleeps. -/
theorem C8_invalid_task_immediate_failure :
    ∀ (fo : FileObj) (folder : String) (transport : Nat → Bool) (R : Nat),
      truthy fo.file_name = false ∨ truthy fo.presigned_url = false →
      download_single_file fo folder transport R = ⟨none, 0, []⟩ := by
  intro fo folder transport R h
  unfold download_single_file
  rw [if_pos]
  rcases h with h | h <;> simp [h]

/-- Witness for C8: a task with a URL but no file name makes no attempt
even against an always-succeeding transport. -/
theorem C8_invalid_task_immediate_failure_witness :
    download_single_file ⟨none, some "http://u"⟩ "/d" (fun _ => true) 5 =
      ⟨none, 0, []⟩ :=
  C8_invalid_task_immediate_failure ⟨none, some "http://u"⟩ "/d"
    (fun _ => true) 5 (Or.inl (by decide))

/-- Once steps 1 and 2 have produced a usable job, the orchestrator
enters archiving unconditionally after the download phase, whatever the
per-file download outcomes (and even on an empty file list): no branch
between step 5 and step 6 inspects the download results. -/
lemma main_zipAttempted (env : Env) (jd : JobDetails) (jfd : JobData)
    (h1 : env.step1 = .ok jd) (h2 : truthy jd.job_id = true)
    (h3 : truthy jd.job_file_download_url = true)
    (h4 : env.step2 = .ok (some jfd)) :
    (main_process_job env).zipAttempted = true := by
  simp only [main_process_job, h1, h2, h3, h4, Bool.not_true,
    Bool.or_self, Bool.false_eq_true, if_false]
  split
  · rfl
  · split
    · rfl
    · split <;> rfl

/-- Once the pipeline reaches the upload phase with a succeeding
step 7, the run ends in the success record. -/
lemma main_succeeds (env : Env) (jd : JobDetails) (jfd : JobData)
    (h1 : env.step1 = .ok jd) (h2 : truthy jd.job_id = true)
    (h3 : truthy jd.job_file_download_url = true)
    (h4 : env.step2 = .ok (some jfd))
    (h5 : env.zipEnv.primaryFails = false)
    (h6 : truthy jfd.call_url_when_done_with_job_id = true)
    (h7 : (step_7_get_upload_url_and_upload env.step7).success = true) :
    (main_process_job env).result.isSuccess = true := by
  simp only [main_process_job, h1, h2, h3, h4, h6, h7,
    step_6_zip_folder, h5, Bool.not_true, Bool.or_self, Bool.not_false,
    Bool.false_eq_true, if_false, if_true]
  rfl

/-- C5: in the upload phase, a callback GET response without an
`upload_url` fails the job with no PUT ever attempted, and a PUT that
does not come back 2xx fails the job after that single attempt, with no
retry.  (The code realises `Failed(NoUploadTarget)` and
`Failed(UploadRejected)` as the job-level failure "Failed to upload zip
file", the two modes being distinguished by whether a PUT was issued.) -/
theorem C5_upload_phase_failure_policy :
    ∀ (env : Env) (jd : JobDetails) (jfd : JobData) (resp : UploadResp),
      env.step1 = .ok jd → truthy jd.job_id = true →
      truthy jd.job_file_download_url = true →
      env.step2 = .ok (some jfd) →
      truthy jfd.call_url_when_done_with_job_id = true →
      env.zipEnv.primaryFails = false →
      env.step7.getResp = .ok resp →
      (truthy resp.upload_url = false →
        (main_process_job env).result =
          .failure "Failed to upload zip file" ∧
        (main_process_job env).putsAttempted = 0) ∧
      (truthy resp.upload_url = true →
       put2xx env.step7.putResult = false →
        (main_process_job env).result =
          .failure "Failed to upload zip file" ∧
        (main_process_job env).putsAttempted = 1) := by
  intro env jd jfd resp h1 h2 h3 h4 h5 h6 h7
  constructor
  · intro h8
    simp [main_process_job, h1, h2, h3, h4, h5, h6, h7, h8,
      step_6_zip_folder, step_7_get_upload_url_and_upload]
  · intro h8 h9
    simp [main_process_job, h1, h2, h3, h4, h5, h6, h7, h8, h9,
      step_6_zip_folder, step_7_get_upload_url_and_upload]

/-- Witness for C5: a callback response without `upload_url` fails the
job with zero PUTs; a 403 PUT fails the job with exactly one PUT. -/
theorem C5_upload_phase_failure_policy_witness :
    ((main_process_job envC5a).result =
        .failure "Failed to upload zip file" ∧
      (main_process_job envC5a).putsAttempted = 0) ∧
    ((main_process_job envC5b).result =
        .failure "Failed to upload zip file" ∧
      (main_process_job envC5b).putsAttempted = 1) :=
  ⟨(C5_upload_phase_failure_policy envC5a jdOk
      ⟨fosAB, some "http://cb"⟩ ⟨none, some "k"⟩
      rfl rfl rfl rfl rfl rfl rfl).1 rfl,
   (C5_upload_phase_failure_policy envC5b jdOk
      ⟨fosAB, some "http://cb"⟩ ⟨some "http://up", some "k"⟩
      rfl rfl rfl rfl rfl rfl rfl).2 rfl rfl⟩

/-- C6: the primary archiving method adds every regular file under the
job folder except the archive file itself, each under an `arcname`
relative to the parent of the job folder, so the job folder's own name
is the first component of every archive entry; the archive file, when
present under the root, never appears among its own entries. -/
theorem C6_primary_archive_layout :
    ∀ (files : List (List String × Nat)) (lfp job_id : String)
      (zenv : ZipEnv), zenv.primaryFails = false →
      (step_6_zip_folder files lfp job_id zenv).path =
        some (zip_file_path lfp job_id) ∧
      (step_6_zip_folder files lfp job_id zenv).contentAtReturnedPath =
        some (.primaryFull (primaryArcnames files lfp job_id)) ∧
      (∀ f ∈ files,
        localPath lfp (joinPath f.1) ≠ zip_file_path lfp job_id →
        (baseName lfp :: f.1) ∈ primaryArcnames files lfp job_id) ∧
      (∀ a ∈ primaryArcnames files lfp job_id,
        a.head? = some (baseName lfp)) ∧
      (∀ f ∈ primaryEntries files lfp job_id,
        localPath lfp (joinPath f.1) ≠ zip_file_path lfp job_id) := by
  intro files lfp job_id zenv h
  refine ⟨by simp [step_6_zip_folder, h], by simp [step_6_zip_folder, h],
    ?_, ?_, ?_⟩
  · intro f hf hne
    unfold primaryArcnames
    refine List.mem_map.2 ⟨f, ?_, rfl⟩
    unfold primaryEntries
    exact List.mem_filter.2 ⟨hf, bne_iff_ne.2 hne⟩
  · intro a ha
    obtain ⟨f, _, rfl⟩ := List.mem_map.1 ha
    rfl
  · intro f hf
    exact bne_iff_ne.1 (List.mem_filter.1 hf).2

/-- Witness for C6 on a concrete tree containing the archive file
itself: both regular files appear under the job folder's name and the
archive file does not appear. -/
theorem C6_primary_archive_layout_witness :
    (step_6_zip_folder
      [(["job_details.json"], 4), (["j1", "a.pdf"], 9),
       (["j1_archive.zip"], 2)] "/w/250101-j1" "j1" zipOk).path =
      some (zip_file_path "/w/250101-j1" "j1") ∧
    (["250101-j1", "job_details.json"] ∈
      primaryArcnames
        [(["job_details.json"], 4), (["j1", "a.pdf"], 9),
         (["j1_archive.zip"], 2)] "/w/250101-j1" "j1") ∧
    (∀ a ∈ primaryArcnames
        [(["job_details.json"], 4), (["j1", "a.pdf"], 9),
         (["j1_archive.zip"], 2)] "/w/250101-j1" "j1",
      a.head? = some "250101-j1") := by
  have hb : baseName "/w/250101-j1" = "250101-j1" := by decide
  have h := C6_primary_archive_layout
    [(["job_details.json"], 4), (["j1", "a.pdf"], 9),
     (["j1_archive.zip"], 2)] "/w/250101-j1" "j1" zipOk rfl
  refine ⟨h.1, ?_, ?_⟩
  · have hm := h.2.2.1 (["job_details.json"], 4) (by decide) (by decide)
    rwa [hb] at hm
  · intro a ha
    rw [← hb]
    exact h.2.2.2.1 a ha

/-- C2 counterexample: a job whose descriptor's file list is empty, run
against succeeding archiving and upload collaborators, ends in the
success record (`Completed`), with the archive built and the upload
PUT issued — the orchestrator neither fails the job nor skips the
archive or the upload. -/
theorem C2_counterexample_empty_job_completes :
    (main_process_job envC2).result.isSuccess = true ∧
    (main_process_job envC2).zipAttempted = true ∧
    (main_process_job envC2).putsAttempted = 1 := by decide

/-- C2 (amended): on an empty file list at job-fetch time, the
scheduler returns an empty download list (a warning, not an error), and
`main_process_job` — which never checks the file list for emptiness —
proceeds to archive the job folder and upload, reaching `Completed`
whenever archiving and upload succeed; the job is not failed as
`InvalidJob`. -/
theorem C2_empty_file_list_proceeds :
    ∀ (env : Env) (jd : JobDetails) (jfd : JobData) (folder : String),
      env.step1 = .ok jd → truthy jd.job_id = true →
      truthy jd.job_file_download_url = true →
      env.step2 = .ok (some jfd) → jfd.file_object = [] →
      step_5_download_files jfd.file_object folder env.transports 1
        = [] ∧
      (main_process_job env).zipAttempted = true ∧
      (env.zipEnv.primaryFails = false →
       truthy jfd.call_url_when_done_with_job_id = true →
       (step_7_get_upload_url_and_upload env.step7).success = true →
       (main_process_job env).result.isSuccess = true) := by
  intro env jd jfd folder h1 h2 h3 h4 h5
  refine ⟨by simp [step_5_download_files, h5], ?_, ?_⟩
  · exact main_zipAttempted env jd jfd h1 h2 h3 h4
  · intro h6 h7 h8
    exact main_succeeds env jd jfd h1 h2 h3 h4 h6 h7 h8

/-- Witness for C2's amended claim at the concrete empty-list run. -/
theorem C2_empty_file_list_proceeds_witness :
    step_5_download_files ([] : List FileObj)
      "/w/process_work/250101-j1/j1" envC2.transports 1 = [] ∧
    (main_process_job envC2).zipAttempted = true ∧
    (main_process_job envC2).result.isSuccess = true := by
  have h := C2_empty_file_list_proceeds envC2 jdOk
    ⟨[], some "http://cb"⟩ "/w/process_work/250101-j1/j1"
    rfl (by decide) (by decide) rfl rfl
  exact ⟨h.1, h.2.1, h.2.2 rfl (by decide) rfl⟩

/-- C3 counterexample: the two-file partial-failure scenario does reach
the success record, but its archive holds 3 entries (the downloaded
`a.pdf` plus `job_details.json` and the per-job log file), not exactly
1 as claimed. -/
theorem C3_counterexample_archive_entry_count :
    (main_process_job envC3).result.isSuccess = true ∧
    (main_process_job envC3).archiveEntries ≠ 1 := by decide

/-- C3 (amended): for the job `["a.pdf", "b.pdf"]` with `b.pdf`'s link
permanently failing, the orchestrator still reaches `Completed` with
succeeded `["a.pdf"]` and failed `["b.pdf"]`; the archive contains the
single downloaded file plus the two job-metadata entries
(`job_details.json` and the log file), 3 entries in all; and the
`Downloading → Archiving` transition is unconditional once the
scheduler returns, for every run that reaches the download phase. -/
theorem C3_partial_failure_still_completes :
    (main_process_job envC3).result = .success
      ⟨"j1", "/w/process_work/250101-j1",
       "/w/process_work/250101-j1/j1",
       ["/w/process_work/250101-j1/j1/a.pdf"],
       "/w/process_work/250101-j1/j1_archive.zip", some "k",
       "/w/process_work/250101-j1/j1_log_file.txt"⟩ ∧
    succeededNames fosAB "/w/process_work/250101-j1/j1"
      envC3.transports 1 = ["a.pdf"] ∧
    failedNames fosAB "/w/process_work/250101-j1/j1"
      envC3.transports 1 = ["b.pdf"] ∧
    (main_process_job envC3).archiveEntries = 3 ∧
    (∀ (env : Env) (jd : JobDetails) (jfd : JobData),
      env.step1 = .ok jd → truthy jd.job_id = true →
      truthy jd.job_file_download_url = true →
      env.step2 = .ok (some jfd) →
      (main_process_job env).zipAttempted = true) :=
  ⟨by decide, by decide, by decide, by decide, main_zipAttempted⟩

/-- Witness for C3's universally quantified conjunct at the scenario
run itself. -/
theorem C3_partial_failure_still_completes_witness :
    (main_process_job envC3).zipAttempted = true :=
  C3_partial_failure_still_completes.2.2.2.2 envC3 jdOk
    ⟨fosAB, some "http://cb"⟩ rfl (by decide) (by decide) rfl

/-- C4: evaluation of `step_6_zip_folder` at the failing input — the
primary method raises part-way leaving its file behind, the fallback
`shutil.make_archive` succeeds.  The function then returns
`{job_id}_archive.zip` — the partial archive of the failed primary run —
while the fallback actually wrote `{job_id}.zip`, and the orchestrator
goes on to upload that partial archive and complete the job: the code
contradicts its own "Successfully created zip archive using fallback
method" log line and the claim's "no partial archive is uploaded". -/
theorem C4_fallback_returns_partial_primary_archive :
    (step_6_zip_folder [(["job_details.json"], 5)]
        "/w/process_work/250101-j1" "j1" ⟨true, true, false, 7⟩).path =
      some (zip_file_path "/w/process_work/250101-j1" "j1") ∧
    (step_6_zip_folder [(["job_details.json"], 5)]
        "/w/process_work/250101-j1" "j1"
        ⟨true, true, false, 7⟩).contentAtReturnedPath =
      some .primaryPartial ∧
    (step_6_zip_folder [(["job_details.json"], 5)]
        "/w/process_work/250101-j1" "j1"
        ⟨true, true, false, 7⟩).fallbackWrotePath =
      some (fallback_zip_path "/w/process_work/250101-j1" "j1") ∧
    zip_file_path "/w/process_work/250101-j1" "j1" ≠
      fallback_zip_path "/w/process_work/250101-j1" "j1" ∧
    (main_process_job envC4).uploadedContent = some .primaryPartial ∧
    (main_process_job envC4).result.isSuccess = true := by decide

/-- C9 counterexample: a run failing at step 1 returns the error
dictionary, whose keys are exactly `error` and
`processing_time_seconds` — it carries no job id (nor state, counts or
sizes), contrary to the claimed content of the summary record. -/
theorem C9_counterexample_failure_record_fields :
    returnKeys (main_process_job envC9fail).result =
      ["error", "processing_time_seconds"] ∧
    "job_id" ∉ returnKeys (main_process_job envC9fail).result := by
  decide

/-- C9 (amended): on every execution path `main_process_job` returns a
structured dictionary and never propagates an exception (the catch-all
handler of lines 533-550 turns every raised error into a return value):
on success the record with keys job id, folder paths, downloaded file
list, archive path, s3 key, log file and elapsed seconds; on failure
the record with keys `error` and `processing_time_seconds` only —
neither record carries a state name, failed-file counts or sizes. -/
theorem C9_structured_result_every_path :
    ∀ env : Env,
      ((main_process_job env).result.isSuccess = true ∧
        returnKeys (main_process_job env).result =
          ["job_id", "local_folder_path", "files_folder_path",
           "downloaded_files", "zip_file_path", "s3_key", "log_file",
           "processing_time_seconds"]) ∨
      ((main_process_job env).result.isSuccess = false ∧
        returnKeys (main_process_job env).result =
          ["error", "processing_time_seconds"]) := by
  intro env
  cases h : (main_process_job env).result with
  | success rec => exact Or.inl ⟨rfl, rfl⟩
  | failure e => exact Or.inr ⟨rfl, rfl⟩

end Processor

namespace UploadHandler

/-- C10: an invocation of the upload-URL handler whose event carries no
(truthy) `job_id` query parameter is not rejected: the handler silently
substitutes `"test-job-id"` and — when presigning succeeds — returns
status 200 with the presigned PUT URL and s3 key
`zip_processed_by_processor/test-job-id/test-job-id.zip`. -/
theorem C10_missing_job_id_uses_default :
    ∀ (event : Option LambdaEvent)
      (presign : String → Except String String) (u : String),
      extract_job_id event = none →
      presign "zip_processed_by_processor/test-job-id/test-job-id.zip" =
        .ok u →
      lambda_handler event presign =
        .ok 200 ⟨"test-job-id", u,
          "zip_processed_by_processor/test-job-id/test-job-id.zip",
          "10 hours"⟩ := by
  intro ev presign u he hp
  have hk : UPLOAD_FOLDER ++ "/" ++ "test-job-id" ++ "/" ++
      "test-job-id" ++ ".zip" =
      "zip_processed_by_processor/test-job-id/test-job-id.zip" := by
    decide
  simp only [lambda_handler, he, Option.getD_none, hk, hp]

/-- Witness for C10: an event with no query parameters and a succeeding
presigner yields the default-keyed 200 response. -/
theorem C10_missing_job_id_uses_default_witness :
    lambda_handler (some ⟨none⟩) (fun _ => .ok "http://put") =
      .ok 200 ⟨"test-job-id", "http://put",
        "zip_processed_by_processor/test-job-id/test-job-id.zip",
        "10 hours"⟩ :=
  C10_missing_job_id_uses_default (some ⟨none⟩)
    (fun _ => .ok "http://put") "http://put" rfl rfl

end UploadHandler
